import Mathlib

/-!
Shallow embedding of `src/server.js` (IPTV panel backend): the SQLite data
model, the Express route handlers, the seeding logic and the JWT auth
middleware, together with theorems settling the frozen claims about them.

Conventions of the embedding:
* each SQLite table is a `List` of row structures; `AUTOINCREMENT` ids are
  modelled as `max id + 1`;
* timestamps are `Nat` milliseconds since the epoch (`Date.now()`);
* a handler's interaction with the storage layer is modelled by `Bool`/
  `Except` parameters describing the storage outcome (`fail = true` means the
  sqlite3 callback received a non-null `err`);
* a JavaScript `TypeError` thrown inside an asynchronous sqlite3 callback is
  not catchable by Express, so such executions are modelled by the dedicated
  response constructor `Resp.crash` (no HTTP response is produced).
-/

namespace IPTV

/-- A row of the `admins` table. -/
structure AdminRow where
  id : Nat
  username : String
  password : String
  email : Option String
  created_at : Nat
deriving DecidableEq

/-- A row of the `packages` table. -/
structure PackageRow where
  id : Nat
  name : String
  channels : Nat
  duration : Nat
  price : Int
  status : String
  created_at : Nat
deriving DecidableEq

/-- A row of the `users` (subscribers) table. -/
structure UserRow where
  id : Nat
  username : String
  password : String
  package_id : Option Nat
  device : Option String
  status : String
  expiry_date : Option Nat
  last_seen : Option Nat
  created_at : Nat
deriving DecidableEq

/-- A row of the `channels` table. -/
structure ChannelRow where
  id : Nat
  name : String
  url : String
  logo : Option String
  category : Option String
  package_id : Option Nat
  created_at : Nat
deriving DecidableEq

/-- A row of the `transactions` table. -/
structure TransactionRow where
  id : Nat
  user_id : Option Nat
  package_id : Option Nat
  amount : Int
  status : String
  created_at : Nat
deriving DecidableEq

/-- The whole database file `iptv_panel.db`. -/
structure Db where
  admins : List AdminRow
  packages : List PackageRow
  users : List UserRow
  channels : List ChannelRow
  transactions : List TransactionRow
deriving DecidableEq

/-- A freshly created (empty) database. -/
def emptyDb : Db :=
  { admins := [], packages := [], users := [], channels := [], transactions := [] }

/-- Outcome of one Express route handler for one request.
`ok` is `res.json(body)` (HTTP 200), `err` is `res.status(code).json(msg)`,
and `crash` is an uncaught JavaScript exception inside an async callback:
the process emits no response for the request. -/
inductive Resp (α : Type) where
  | ok : α → Resp α
  | err : Nat → String → Resp α
  | crash : Resp α
deriving DecidableEq

end IPTV

namespace IPTV

/-! ## Auth middleware (`authenticateToken`, server.js lines 144-159) -/

/-- Decoded JWT claims (`jwt.sign({ id, username }, ...)`, optionally with
`type: 'user'` for subscriber tokens). -/
structure Claims where
  id : Nat
  username : String
  type : Option String
deriving DecidableEq

/-- JavaScript `String.prototype.split(' ')` on the underlying character
list: `"a b"` gives `["a","b"]`, `""` gives `[""]`, consecutive spaces give
empty parts. -/
def splitOnSpace (cs : List Char) : List (List Char) :=
  match cs with
  | [] => [[]]
  | c :: rest =>
    let r := splitOnSpace rest
    if c = ' ' then [] :: r
    else
      match r with
      | [] => [[c]]
      | w :: ws => (c :: w) :: ws

/-- The line `const token = authHeader && authHeader.split(' ')[1]` and the
JavaScript falsiness test `if (!token)`: the token is present exactly when the
header exists, has a second space-separated part, and that part is non-empty. -/
def extractToken (authHeader : Option String) : Option String :=
  match authHeader with
  | none => none
  | some h =>
    match (splitOnSpace h.data)[1]? with
    | none => none
    | some t => if t = [] then none else some (String.mk t)

/-- Result of the middleware: either a rejection response or continuation
with `req.user` set to the decoded claims. -/
inductive AuthResult where
  | reject : Nat → String → AuthResult
  | proceed : Claims → AuthResult
deriving DecidableEq

/-- The `authenticateToken` middleware. `verify` stands for
`jwt.verify(token, JWT_SECRET, ...)`: `Except.error` when the signature is
invalid or the token expired. -/
def authenticateToken (verify : String → Except Unit Claims)
    (authHeader : Option String) : AuthResult :=
  match extractToken authHeader with
  | none => .reject 401 "Access token required"
  | some t =>
    match verify t with
    | .error _ => .reject 403 "Invalid or expired token"
    | .ok c => .proceed c

/-! ## Dashboard activity (`GET /api/dashboard/activity`, lines 256-274) -/

/-- The SQL `CASE` rendering a relative time. `s` is the elapsed time since
`last_seen` in whole seconds; the SQL works on
`(julianday('now') - julianday(last_seen))` and `CAST (... AS INTEGER)`
truncates, which on non-negative values is `Nat` division. The guard
`elapsed minutes < 60` on the un-truncated value is `s < 3600`, and
`elapsed hours < 24` is `s < 86400`. -/
def lastSeenString (s : Nat) : String :=
  if s < 3600 then toString (s / 60) ++ " min ago"
  else if s < 86400 then toString (s / 3600) ++ " hours ago"
  else toString (s / 86400) ++ " days ago"

/-- One row of the activity response. `lastSeen` is `none` when the user's
`last_seen` column is NULL (then every julianday expression is NULL and the
SQL `||` concatenation yields NULL). -/
structure ActivityRow where
  id : Nat
  username : String
  device : Option String
  status : String
  lastSeen : Option String
deriving DecidableEq

/-- Stable insertion of `x` into `l` under the boolean order `le`. -/
def insertSorted (le : α → α → Bool) (x : α) : List α → List α
  | [] => [x]
  | y :: ys => if le x y then x :: y :: ys else y :: insertSorted le x ys

/-- Stable sort under the boolean order `le`, modelling a SQL `ORDER BY`. -/
def sortBy (le : α → α → Bool) : List α → List α
  | [] => []
  | x :: xs => insertSorted le x (sortBy le xs)

/-- SQLite ordering for `ORDER BY last_seen DESC`: NULLs sort last in
descending order. -/
def lastSeenDescLe (a b : UserRow) : Bool :=
  match a.last_seen, b.last_seen with
  | _, none => true
  | none, some _ => false
  | some x, some y => decide (y ≤ x)

/-- Rows of `GET /api/dashboard/activity` (before the error check): the ten
most recently seen users with the rendered relative time. `now` is the
current time in ms; elapsed seconds are `(now - t) / 1000`. -/
def activityRows (db : Db) (now : Nat) : List ActivityRow :=
  ((sortBy lastSeenDescLe db.users).take 10).map fun u =>
    { id := u.id, username := u.username, device := u.device, status := u.status,
      lastSeen := u.last_seen.map fun t => lastSeenString ((now - t) / 1000) }

/-- The `GET /api/dashboard/activity` handler: `db.all` failure is checked
and becomes a 500. -/
def activityRoute (db : Db) (now : Nat) (fail : Bool) : Resp (List ActivityRow) :=
  if fail then .err 500 "Database error"
  else .ok (activityRows db now)

end IPTV

namespace IPTV

/-! ## Dashboard stats (`GET /api/dashboard/stats`, lines 217-253)

Six `db.get` aggregate queries, each nested in the previous callback. None of
the six callbacks inspects `err`; on a storage failure the row argument is
`undefined` and the property access (`row.total`, `row.today`, `row.count`)
throws a `TypeError`, so the handler crashes instead of responding. Each
stage's storage outcome is an `Except Unit (Option Int)`: `.ok v` is a
successful row whose aggregate column holds `v` (`none` = SQL NULL, turned
into `0` by `|| 0`). -/

/-- The `stats` JSON payload. -/
structure Stats where
  totalRevenue : Int
  todayRevenue : Int
  activeUsers : Int
  newUsersThisWeek : Int
  totalChannels : Int
  totalPackages : Int
deriving DecidableEq

/-- The `GET /api/dashboard/stats` handler as a function of the six storage
outcomes, in source order: total revenue, today's revenue, active users, new
users this week, total channels, total packages. -/
def dashboardStats (r1 r2 r3 r4 r5 r6 : Except Unit (Option Int)) : Resp Stats :=
  match r1 with
  | .error _ => .crash
  | .ok v1 =>
    match r2 with
    | .error _ => .crash
    | .ok v2 =>
      match r3 with
      | .error _ => .crash
      | .ok v3 =>
        match r4 with
        | .error _ => .crash
        | .ok v4 =>
          match r5 with
          | .error _ => .crash
          | .ok v5 =>
            match r6 with
            | .error _ => .crash
            | .ok v6 =>
              .ok { totalRevenue := v1.getD 0, todayRevenue := v2.getD 0,
                    activeUsers := v3.getD 0, newUsersThisWeek := v4.getD 0,
                    totalChannels := v5.getD 0, totalPackages := v6.getD 0 }

/-! ## Packages routes (lines 279-343) -/

/-- The correlated subquery of `GET /api/packages`:
`SELECT COUNT(*) FROM users WHERE package_id = p.id AND status = 'active'`.
A NULL `package_id` never equals `p.id` in SQL, matching `Option` equality. -/
def subscribersCount (db : Db) (pid : Nat) : Nat :=
  (db.users.filter fun u => u.package_id == some pid && u.status == "active").length

/-- Rows of `GET /api/packages`: every package decorated with its derived
`subscribers` count. -/
def packagesListRows (db : Db) : List (PackageRow × Nat) :=
  db.packages.map fun p => (p, subscribersCount db p.id)

/-- The `GET /api/packages` handler. -/
def packagesListRoute (db : Db) (fail : Bool) : Resp (List (PackageRow × Nat)) :=
  if fail then .err 500 "Database error"
  else .ok (packagesListRows db)

/-- The `GET /api/packages/:id` handler: 500 on storage failure, 404 when no
row matches, otherwise the row. -/
def packageGetRoute (db : Db) (pid : Nat) (fail : Bool) : Resp PackageRow :=
  if fail then .err 500 "Database error"
  else
    match db.packages.find? (fun p => p.id == pid) with
    | none => .err 404 "Package not found"
    | some p => .ok p

/-- Next AUTOINCREMENT id for a list of current ids. -/
def nextId (ids : List Nat) : Nat :=
  ids.foldr max 0 + 1

/-- The `POST /api/packages` handler: inserts with default status `active`. -/
def packageCreateRoute (db : Db) (now : Nat) (name : String) (channels duration : Nat)
    (price : Int) (fail : Bool) : Resp PackageRow × Db :=
  if fail then (.err 500 "Database error", db)
  else
    let row : PackageRow :=
      { id := nextId (db.packages.map (·.id)), name := name, channels := channels,
        duration := duration, price := price, status := "active", created_at := now }
    (.ok row, { db with packages := db.packages ++ [row] })

/-- Affected-row count of a mutation keyed on `id = ?`. -/
def changesFor (ids : List Nat) (target : Nat) : Nat :=
  (ids.filter fun i => i == target).length

/-- The `PUT /api/packages/:id` handler: checks `this.changes === 0` and
returns 404 in that case. -/
def packagePutRoute (db : Db) (pid : Nat) (name : String) (channels duration : Nat)
    (price : Int) (status : String) (fail : Bool) : Resp String × Db :=
  if fail then (.err 500 "Database error", db)
  else
    let db' : Db :=
      { db with packages := db.packages.map fun p =>
          if p.id == pid then
            { p with name := name, channels := channels, duration := duration,
                     price := price, status := status }
          else p }
    if changesFor (db.packages.map (·.id)) pid == 0 then
      (.err 404 "Package not found", db')
    else
      (.ok "Package updated successfully", db')

/-- The `DELETE /api/packages/:id` handler: checks `this.changes === 0`. -/
def packageDeleteRoute (db : Db) (pid : Nat) (fail : Bool) : Resp String × Db :=
  if fail then (.err 500 "Database error", db)
  else
    let db' : Db := { db with packages := db.packages.filter fun p => !(p.id == pid) }
    if changesFor (db.packages.map (·.id)) pid == 0 then
      (.err 404 "Package not found", db')
    else
      (.ok "Package deleted successfully", db')

end IPTV

namespace IPTV

/-! ## Users routes (lines 348-406) -/

/-- One row of `GET /api/users`: `u.*` (the password hash included) plus the
left-joined `p.name as package_name`. -/
structure UserListRow where
  id : Nat
  username : String
  password : String
  package_id : Option Nat
  device : Option String
  status : String
  expiry_date : Option Nat
  last_seen : Option Nat
  created_at : Nat
  package_name : Option String
deriving DecidableEq

/-- The join `LEFT JOIN packages p ON u.package_id = p.id` for one user row: one output
row per matching package, or a single row with NULL `package_name` when none
matches. -/
def userJoinRows (db : Db) (u : UserRow) : List UserListRow :=
  match db.packages.filter (fun p => u.package_id == some p.id) with
  | [] =>
    [{ id := u.id, username := u.username, password := u.password,
       package_id := u.package_id, device := u.device, status := u.status,
       expiry_date := u.expiry_date, last_seen := u.last_seen,
       created_at := u.created_at, package_name := none }]
  | ps => ps.map fun p =>
      { id := u.id, username := u.username, password := u.password,
        package_id := u.package_id, device := u.device, status := u.status,
        expiry_date := u.expiry_date, last_seen := u.last_seen,
        created_at := u.created_at, package_name := some p.name }

/-- The order `ORDER BY u.created_at DESC`. -/
def createdAtDescLe (a b : UserRow) : Bool :=
  decide (b.created_at ≤ a.created_at)

/-- Rows of `GET /api/users`. -/
def usersListRows (db : Db) : List UserListRow :=
  (sortBy createdAtDescLe db.users).flatMap (userJoinRows db)

/-- The `GET /api/users` handler. -/
def usersListRoute (db : Db) (fail : Bool) : Resp (List UserListRow) :=
  if fail then .err 500 "Database error"
  else .ok (usersListRows db)

/-- Request body of `POST /api/users`. The handler destructures only
`username`, `password`, `package_id` and `device`; a `status` field supplied
by the caller is never read. -/
structure CreateUserBody where
  username : String
  password : String
  package_id : Option Nat
  device : Option String
  status : Option String
deriving DecidableEq

/-- JSON payload answered by `POST /api/users`. -/
structure CreatedUser where
  id : Nat
  username : String
  package_id : Option Nat
  device : Option String
  status : String
deriving DecidableEq

/-- The `POST /api/users` handler. `hash` is `bcrypt.hash(password, 10)`.
The duration lookup callback ignores `err` and dereferences `pkg.duration`
directly, so both a failed lookup (`lookupFail`) and a missing package row
throw a `TypeError` (`crash`); when the row exists, `pkg.duration || 30`
defaults a falsy (0) duration to 30 days. The INSERT names no `status`
column, so the schema default `'active'` applies, and `expiry_date` is
`Date.now() + duration * 24*60*60*1000`. -/
def createUserRoute (db : Db) (now : Nat) (hash : String → String)
    (body : CreateUserBody) (lookupFail insertFail : Bool) :
    Resp CreatedUser × Db :=
  if lookupFail then (.crash, db)
  else
    match db.packages.find? (fun p => body.package_id == some p.id) with
    | none => (.crash, db)
    | some pkg =>
      let duration := if pkg.duration == 0 then 30 else pkg.duration
      let expiryDate := now + duration * 24 * 60 * 60 * 1000
      if insertFail then (.err 500 "Database error", db)
      else
        let uid := nextId (db.users.map (·.id))
        let row : UserRow :=
          { id := uid, username := body.username, password := hash body.password,
            package_id := body.package_id, device := body.device,
            status := "active", expiry_date := some expiryDate,
            last_seen := none, created_at := now }
        (.ok { id := uid, username := body.username, package_id := body.package_id,
               device := body.device, status := "active" },
         { db with users := db.users ++ [row] })

/-- The `PUT /api/users/:id` handler: updates `package_id`, `status`,
`device` of the matching rows and answers success unconditionally — no
`this.changes === 0` check exists on this route. -/
def userPutRoute (db : Db) (uid : Nat) (package_id : Option Nat) (status : String)
    (device : Option String) (fail : Bool) : Resp String × Db :=
  if fail then (.err 500 "Database error", db)
  else
    (.ok "User updated successfully",
     { db with users := db.users.map fun u =>
         if u.id == uid then
           { u with package_id := package_id, status := status, device := device }
         else u })

/-- The `DELETE /api/users/:id` handler: answers success unconditionally —
no `this.changes === 0` check exists on this route. -/
def userDeleteRoute (db : Db) (uid : Nat) (fail : Bool) : Resp String × Db :=
  if fail then (.err 500 "Database error", db)
  else
    (.ok "User deleted successfully",
     { db with users := db.users.filter fun u => !(u.id == uid) })

/-! ## Channels routes (lines 411-441) -/

/-- The `GET /api/channels/:packageId` handler (public, no auth). -/
def channelsGetRoute (db : Db) (pid : Nat) (fail : Bool) : Resp (List ChannelRow) :=
  if fail then .err 500 "Database error"
  else .ok (db.channels.filter fun c => c.package_id == some pid)

/-- The `POST /api/channels` handler. -/
def channelCreateRoute (db : Db) (now : Nat) (name url : String)
    (logo category : Option String) (package_id : Option Nat) (fail : Bool) :
    Resp ChannelRow × Db :=
  if fail then (.err 500 "Database error", db)
  else
    let row : ChannelRow :=
      { id := nextId (db.channels.map (·.id)), name := name, url := url,
        logo := logo, category := category, package_id := package_id,
        created_at := now }
    (.ok row, { db with channels := db.channels ++ [row] })

/-- The `DELETE /api/channels/:id` handler: answers success unconditionally —
no `this.changes === 0` check exists on this route. -/
def channelDeleteRoute (db : Db) (cid : Nat) (fail : Bool) : Resp String × Db :=
  if fail then (.err 500 "Database error", db)
  else
    (.ok "Channel deleted successfully",
     { db with channels := db.channels.filter fun c => !(c.id == cid) })

end IPTV

namespace IPTV

/-! ## Auth routes (lines 164-212) -/

/-- JSON payload of a successful admin login. -/
structure AdminLoginOk where
  token : String
  id : Nat
  username : String
  email : Option String
deriving DecidableEq

/-- The `POST /api/auth/login` handler. `dbFail` is a `db.get` error (checked,
500); a missing admin row or a failed bcrypt comparison gives 401. `sign`
stands for `jwt.sign({id, username}, JWT_SECRET, {expiresIn: '24h'})`. -/
def adminLoginRoute (db : Db) (username : String) (cmp : String → String → Bool)
    (sign : Nat → String → String) (password : String) (dbFail : Bool) :
    Resp AdminLoginOk :=
  if dbFail then .err 500 "Database error"
  else
    match db.admins.find? (fun a => a.username == username) with
    | none => .err 401 "Invalid credentials"
    | some a =>
      if cmp password a.password then
        .ok { token := sign a.id a.username, id := a.id, username := a.username,
              email := a.email }
      else .err 401 "Invalid credentials"

/-- JSON payload of a successful subscriber login. -/
structure UserLoginOk where
  token : String
  id : Nat
  username : String
  status : String
  expiry_date : Option Nat
deriving DecidableEq

/-- The `POST /api/auth/user-login` handler: as admin login, but on success it
also issues `db.run('UPDATE users SET last_seen = ... WHERE id = ?')` with NO
callback (server.js line 203) — a fire-and-forget statement. `dbFail` is the
checked failure of the initial `db.get` SELECT (500); `updateFail` is a
failure of the fire-and-forget UPDATE: the handler never observes it, the
`last_seen` write is simply lost and the 200 login response is sent anyway. -/
def userLoginRoute (db : Db) (now : Nat) (username : String)
    (cmp : String → String → Bool) (sign : Nat → String → String)
    (password : String) (dbFail updateFail : Bool) : Resp UserLoginOk × Db :=
  if dbFail then (.err 500 "Database error", db)
  else
    match db.users.find? (fun u => u.username == username) with
    | none => (.err 401 "Invalid credentials", db)
    | some u =>
      if cmp password u.password then
        (.ok { token := sign u.id u.username, id := u.id, username := u.username,
               status := u.status, expiry_date := u.expiry_date },
         if updateFail then db
         else
           { db with users := db.users.map fun v =>
               if v.id == u.id then { v with last_seen := some now } else v })
      else (.err 401 "Invalid credentials", db)

/-! ## Seeding (`initDatabase`, lines 89-139) -/

/-- Admin seeding: `SELECT * FROM admins WHERE username = 'admin'`; the seed
row is inserted when NO row with username `admin` exists — the guard is not
table emptiness. `adminHash` is `bcrypt.hash('admin123', 10)`. -/
def seedAdmins (db : Db) (adminHash : String) (now : Nat) : Db :=
  if (db.admins.find? (fun a => a.username == "admin")).isNone then
    { db with admins := db.admins ++
        [{ id := nextId (db.admins.map (·.id)), username := "admin",
           password := adminHash, email := some "admin@iptv.com",
           created_at := now }] }
  else db

/-- Package seeding: `SELECT COUNT(*) FROM packages`; the three sample
packages are inserted exactly when the table is empty. -/
def seedPackages (db : Db) (now : Nat) : Db :=
  if db.packages.length == 0 then
    { db with packages :=
        [{ id := 1, name := "Basic Plan", channels := 150, duration := 30,
           price := 15, status := "active", created_at := now },
         { id := 2, name := "Premium Plan", channels := 300, duration := 30,
           price := 30, status := "active", created_at := now },
         { id := 3, name := "VIP Plan", channels := 500, duration := 30,
           price := 50, status := "active", created_at := now }] }
  else db

/-- User seeding: `SELECT COUNT(*) FROM users`; the four sample subscribers
are inserted exactly when the table is empty. Active users get
`now + 30 days`, the expired one `now - 2 days`. `userHash` is
`bcrypt.hash('user123', 10)`. -/
def seedUsers (db : Db) (userHash : String) (now : Nat) : Db :=
  if db.users.length == 0 then
    { db with users :=
        [{ id := 1, username := "user001", password := userHash,
           package_id := some 1, device := some "Android", status := "active",
           expiry_date := some (now + 30 * 24 * 60 * 60 * 1000),
           last_seen := some now, created_at := now },
         { id := 2, username := "user002", password := userHash,
           package_id := some 2, device := some "iOS", status := "active",
           expiry_date := some (now + 30 * 24 * 60 * 60 * 1000),
           last_seen := some now, created_at := now },
         { id := 3, username := "user003", password := userHash,
           package_id := some 3, device := some "Smart TV", status := "active",
           expiry_date := some (now + 30 * 24 * 60 * 60 * 1000),
           last_seen := some now, created_at := now },
         { id := 4, username := "user004", password := userHash,
           package_id := some 1, device := some "Android", status := "expired",
           expiry_date := some (now - 2 * 24 * 60 * 60 * 1000),
           last_seen := some now, created_at := now }] }
  else db

/-- The seeding part of `initDatabase` (after `CREATE TABLE IF NOT EXISTS`). -/
def seedDatabase (db : Db) (adminHash userHash : String) (now : Nat) : Db :=
  seedUsers (seedPackages (seedAdmins db adminHash now) now) userHash now

end IPTV

namespace IPTV

/-! ## Concrete fixtures used by witnesses -/

/-- A concrete stand-in for `bcrypt.hash(·, 10)`. -/
def demoHash (s : String) : String :=
  "hashed-" ++ s

/-- The database obtained by seeding a fresh file at time 0. -/
def fixtureDb : Db :=
  seedDatabase emptyDb "adminhash" "userhash" 0

/-- The sample `Basic Plan` package, id 1. -/
def pkgFix : PackageRow :=
  { id := 1, name := "Basic Plan", channels := 150, duration := 30, price := 15,
    status := "active", created_at := 0 }

/-- A subscriber fixture row. -/
def mkUserFix (i : Nat) (un : String) (pid : Nat) (st : String) : UserRow :=
  { id := i, username := un, password := "hashed-user", package_id := some pid,
    device := some "Android", status := st, expiry_date := none,
    last_seen := some 0, created_at := 0 }

/-- The spec's subscriber-count fixture: two active users on package 1, one
expired user on package 1, one active user on package 2. -/
def fix2Db : Db :=
  { emptyDb with
    packages := [pkgFix],
    users := [mkUserFix 1 "u1" 1 "active", mkUserFix 2 "u2" 1 "active",
              mkUserFix 3 "u3" 1 "expired", mkUserFix 4 "u4" 2 "active"] }

/-- A concrete stand-in for `jwt.verify`: accepts exactly the token `tok`. -/
def demoVerify (t : String) : Except Unit Claims :=
  if t = "tok" then .ok { id := 1, username := "admin", type := none }
  else .error ()

/-- A non-empty admins table that contains no row with username `admin`. -/
def otherAdminDb : Db :=
  { emptyDb with admins :=
      [{ id := 1, username := "operator", password := "x", email := none,
         created_at := 0 }] }

end IPTV

namespace IPTV

/-! ## Claim theorems -/

/-- Inserting preserves the elements of a list. -/
theorem mem_insertSorted (le : α → α → Bool) (x a : α) (l : List α) :
    a ∈ insertSorted le x l ↔ a = x ∨ a ∈ l := by
  induction l with
  | nil => simp [insertSorted]
  | cons y ys ih =>
    by_cases h : le x y
    · simp [insertSorted, h]
    · simp only [insertSorted, h, Bool.false_eq_true, if_false, List.mem_cons, ih]
      tauto

/-- Sorting preserves the elements of a list. -/
theorem mem_sortBy (le : α → α → Bool) (a : α) (l : List α) :
    a ∈ sortBy le l ↔ a ∈ l := by
  induction l with
  | nil => simp [sortBy]
  | cons x xs ih =>
    simp [sortBy, mem_insertSorted, ih]

/-- C5: every row of the dashboard activity operation renders `lastSeen` from
the elapsed time since `last_seen` by truncation in exactly three buckets:
whole minutes and " min ago" under 60 minutes, whole hours and " hours ago"
under 24 hours, else whole days and " days ago"; 5 minutes renders
"5 min ago", 3 hours "3 hours ago", 2 days "2 days ago". -/
theorem activity_lastSeen_buckets :
    (∀ s : Nat, s < 3600 → lastSeenString s = toString (s / 60) ++ " min ago") ∧
    (∀ s : Nat, 3600 ≤ s → s < 86400 →
      lastSeenString s = toString (s / 3600) ++ " hours ago") ∧
    (∀ s : Nat, 86400 ≤ s → lastSeenString s = toString (s / 86400) ++ " days ago") ∧
    lastSeenString 300 = "5 min ago" ∧
    lastSeenString 10800 = "3 hours ago" ∧
    lastSeenString 172800 = "2 days ago" ∧
    (∀ db now row, row ∈ activityRows db now →
      ∃ u, u ∈ db.users ∧ row.id = u.id ∧
        row.lastSeen = u.last_seen.map fun t => lastSeenString ((now - t) / 1000)) := by
  refine ⟨?_, ?_, ?_, by decide, by decide, by decide, ?_⟩
  · intro s hs
    simp [lastSeenString, hs]
  · intro s h1 h2
    simp [lastSeenString, Nat.not_lt.mpr h1, h2]
  · intro s h1
    have h2 : ¬ s < 3600 := by omega
    have h3 : ¬ s < 86400 := by omega
    simp [lastSeenString, h2, h3]
  · intro db now row hrow
    unfold activityRows at hrow
    rcases List.mem_map.mp hrow with ⟨u, hu, rfl⟩
    refine ⟨u, ?_, rfl, rfl⟩
    exact (mem_sortBy lastSeenDescLe u db.users).mp (List.mem_of_mem_take hu)

/-- Witness for C5 at concrete inputs. -/
theorem activity_lastSeen_buckets_witness :
    lastSeenString 300 = toString (300 / 60) ++ " min ago" ∧
    lastSeenString 10800 = toString (10800 / 3600) ++ " hours ago" ∧
    lastSeenString 172800 = toString (172800 / 86400) ++ " days ago" ∧
    ∃ u, u ∈ fixtureDb.users ∧
      ({ id := 1, username := "user001", device := some "Android",
         status := "active", lastSeen := some "0 min ago" } : ActivityRow).id = u.id ∧
      ({ id := 1, username := "user001", device := some "Android",
         status := "active", lastSeen := some "0 min ago" } : ActivityRow).lastSeen =
        u.last_seen.map fun t => lastSeenString ((0 - t) / 1000) :=
  ⟨activity_lastSeen_buckets.1 300 (by decide),
   activity_lastSeen_buckets.2.1 10800 (by decide) (by decide),
   activity_lastSeen_buckets.2.2.1 172800 (by decide),
   activity_lastSeen_buckets.2.2.2.2.2.2 fixtureDb 0
     { id := 1, username := "user001", device := some "Android",
       status := "active", lastSeen := some "0 min ago" } (by decide)⟩

/-- C8: the auth middleware rejects with 401 "Access token required" when no
bearer token is supplied, with 403 "Invalid or expired token" when
verification fails (bad signature or expired), and otherwise proceeds with
the decoded claims attached. -/
theorem authenticateToken_spec :
    (∀ verify, authenticateToken verify none = .reject 401 "Access token required") ∧
    (∀ verify h, extractToken h = none →
      authenticateToken verify h = .reject 401 "Access token required") ∧
    (∀ verify h t, extractToken h = some t → verify t = .error () →
      authenticateToken verify h = .reject 403 "Invalid or expired token") ∧
    (∀ verify h t c, extractToken h = some t → verify t = .ok c →
      authenticateToken verify h = .proceed c) := by
  refine ⟨fun verify => rfl, ?_, ?_, ?_⟩
  · intro verify h he
    simp [authenticateToken, he]
  · intro verify h t he hv
    simp [authenticateToken, he, hv]
  · intro verify h t c he hv
    simp [authenticateToken, he, hv]

/-- Witness for C8 at concrete inputs. -/
theorem authenticateToken_spec_witness :
    authenticateToken demoVerify none = .reject 401 "Access token required" ∧
    authenticateToken demoVerify (some "Bearer bad") =
      .reject 403 "Invalid or expired token" ∧
    authenticateToken demoVerify (some "Bearer tok") =
      .proceed { id := 1, username := "admin", type := none } :=
  ⟨authenticateToken_spec.1 demoVerify,
   authenticateToken_spec.2.2.1 demoVerify (some "Bearer bad") "bad" (by decide) rfl,
   authenticateToken_spec.2.2.2 demoVerify (some "Bearer tok") "tok"
     { id := 1, username := "admin", type := none } (by decide) rfl⟩

end IPTV

namespace IPTV

/-- C9: every row returned by `GET /api/users` carries the stored hashed
password of the corresponding user — the query selects `u.*` without
excluding the password column. -/
theorem usersList_exposes_password :
    ∀ db row, row ∈ usersListRows db →
      ∃ u, u ∈ db.users ∧ row.id = u.id ∧ row.username = u.username ∧
        row.password = u.password := by
  intro db row hrow
  unfold usersListRows at hrow
  rcases List.mem_flatMap.mp hrow with ⟨u, hu, hj⟩
  refine ⟨u, (mem_sortBy createdAtDescLe u db.users).mp hu, ?_⟩
  unfold userJoinRows at hj
  rcases hfilter : db.users, hj with _
  revert hj
  cases db.packages.filter (fun p => u.package_id == some p.id) with
  | nil =>
    intro hj
    simp only [List.mem_singleton] at hj
    subst hj
    exact ⟨rfl, rfl, rfl⟩
  | cons p ps =>
    intro hj
    rcases List.mem_map.mp hj with ⟨q, _, rfl⟩
    exact ⟨rfl, rfl, rfl⟩

/-- Witness for C9 on the seeded fixture. -/
theorem usersList_exposes_password_witness :
    ∃ u, u ∈ fixtureDb.users ∧
      ({ id := 1, username := "user001", password := "userhash",
         package_id := some 1, device := some "Android", status := "active",
         expiry_date := some 2592000000, last_seen := some 0, created_at := 0,
         package_name := some "Basic Plan" } : UserListRow).id = u.id ∧
      ({ id := 1, username := "user001", password := "userhash",
         package_id := some 1, device := some "Android", status := "active",
         expiry_date := some 2592000000, last_seen := some 0, created_at := 0,
         package_name := some "Basic Plan" } : UserListRow).username = u.username ∧
      ({ id := 1, username := "user001", password := "userhash",
         package_id := some 1, device := some "Android", status := "active",
         expiry_date := some 2592000000, last_seen := some 0, created_at := 0,
         package_name := some "Basic Plan" } : UserListRow).password = u.password :=
  usersList_exposes_password fixtureDb
    { id := 1, username := "user001", password := "userhash",
      package_id := some 1, device := some "Android", status := "active",
      expiry_date := some 2592000000, last_seen := some 0, created_at := 0,
      package_name := some "Basic Plan" } (by decide)

end IPTV

namespace IPTV

/-- C10: `PUT /api/users/:id` modifies only the `package_id`, `status` and
`device` fields of the matching row; `username`, `password`, `expiry_date`,
`last_seen`, `created_at` (and `id`) of that row, all non-matching user rows,
and every other table are unchanged. -/
theorem userPut_frame :
    ∀ (db : Db) (uid : Nat) (pid : Option Nat) (st : String) (dev : Option String),
      (userPutRoute db uid pid st dev false).1 = .ok "User updated successfully" ∧
      (userPutRoute db uid pid st dev false).2.admins = db.admins ∧
      (userPutRoute db uid pid st dev false).2.packages = db.packages ∧
      (userPutRoute db uid pid st dev false).2.channels = db.channels ∧
      (userPutRoute db uid pid st dev false).2.transactions = db.transactions ∧
      (userPutRoute db uid pid st dev false).2.users.length = db.users.length ∧
      ∀ (i : Nat) (h1 : i < db.users.length)
          (h2 : i < (userPutRoute db uid pid st dev false).2.users.length),
        ((db.users.get ⟨i, h1⟩).id ≠ uid →
          (userPutRoute db uid pid st dev false).2.users.get ⟨i, h2⟩ =
            db.users.get ⟨i, h1⟩) ∧
        ((db.users.get ⟨i, h1⟩).id = uid →
          (userPutRoute db uid pid st dev false).2.users.get ⟨i, h2⟩ =
            { db.users.get ⟨i, h1⟩ with
                package_id := pid, status := st, device := dev }) ∧
        ((userPutRoute db uid pid st dev false).2.users.get ⟨i, h2⟩).username =
          (db.users.get ⟨i, h1⟩).username ∧
        ((userPutRoute db uid pid st dev false).2.users.get ⟨i, h2⟩).password =
          (db.users.get ⟨i, h1⟩).password ∧
        ((userPutRoute db uid pid st dev false).2.users.get ⟨i, h2⟩).expiry_date =
          (db.users.get ⟨i, h1⟩).expiry_date ∧
        ((userPutRoute db uid pid st dev false).2.users.get ⟨i, h2⟩).last_seen =
          (db.users.get ⟨i, h1⟩).last_seen ∧
        ((userPutRoute db uid pid st dev false).2.users.get ⟨i, h2⟩).created_at =
          (db.users.get ⟨i, h1⟩).created_at ∧
        ((userPutRoute db uid pid st dev false).2.users.get ⟨i, h2⟩).id =
          (db.users.get ⟨i, h1⟩).id := by
  intro db uid pid st dev
  refine ⟨rfl, rfl, rfl, rfl, rfl, List.length_map db.users _, ?_⟩
  intro i h1 h2
  have hget :
      (userPutRoute db uid pid st dev false).2.users.get ⟨i, h2⟩ =
        (fun u : UserRow =>
          if u.id == uid then
            { u with package_id := pid, status := st, device := dev }
          else u) (db.users.get ⟨i, h1⟩) := by
    simp [userPutRoute, List.getElem_map]
  simp only [List.get_eq_getElem] at hget
  by_cases hid : (db.users.get ⟨i, h1⟩).id = uid
  · simp only [List.get_eq_getElem] at hid
    refine ⟨fun hc => absurd hid hc, fun _ => ?_, ?_, ?_, ?_, ?_, ?_, ?_⟩ <;>
      simp [List.get_eq_getElem, hget, hid]
  · simp only [List.get_eq_getElem] at hid
    have hb : (db.users[i].id == uid) = false := beq_eq_false_iff_ne.mpr hid
    refine ⟨fun _ => ?_, fun hc => absurd hc hid, ?_, ?_, ?_, ?_, ?_, ?_⟩ <;>
      simp [List.get_eq_getElem, hget, hb]

/-- Witness for C10 on the seeded fixture: updating user 1 leaves user 2
(index 1) untouched and keeps user 1's username and password. -/
theorem userPut_frame_witness :
    (userPutRoute fixtureDb 1 (some 2) "expired" (some "Web") false).1 =
      .ok "User updated successfully" ∧
    (userPutRoute fixtureDb 1 (some 2) "expired" (some "Web") false).2.packages =
      fixtureDb.packages ∧
    (userPutRoute fixtureDb 1 (some 2) "expired" (some "Web") false).2.users.get
        ⟨1, by decide⟩ = fixtureDb.users.get ⟨1, by decide⟩ ∧
    ((userPutRoute fixtureDb 1 (some 2) "expired" (some "Web") false).2.users.get
        ⟨0, by decide⟩).password = (fixtureDb.users.get ⟨0, by decide⟩).password :=
  ⟨(userPut_frame fixtureDb 1 (some 2) "expired" (some "Web")).1,
   (userPut_frame fixtureDb 1 (some 2) "expired" (some "Web")).2.2.1,
   ((userPut_frame fixtureDb 1 (some 2) "expired" (some "Web")).2.2.2.2.2.2
      1 (by decide) (by decide)).1 (by decide),
   ((userPut_frame fixtureDb 1 (some 2) "expired" (some "Web")).2.2.2.2.2.2
      0 (by decide) (by decide)).2.2.2.1⟩

end IPTV

namespace IPTV

/-- C6: every user created through `POST /api/users` is stored with status
`active`: the response from two bodies differing only in their `status` field
is identical (the handler never reads it), any row added to the users table
has status `active`, and the acknowledged payload reports status `active`. -/
theorem createUser_status_always_active :
    ∀ (db : Db) (now : Nat) (hash : String → String) (body : CreateUserBody)
      (lookupFail insertFail : Bool) (s : Option String),
      createUserRoute db now hash { body with status := s } lookupFail insertFail =
        createUserRoute db now hash body lookupFail insertFail ∧
      (∀ u, u ∈ (createUserRoute db now hash body lookupFail insertFail).2.users →
        u ∉ db.users → u.status = "active") ∧
      (∀ c, (createUserRoute db now hash body lookupFail insertFail).1 = .ok c →
        c.status = "active") := by
  intro db now hash body lookupFail insertFail s
  refine ⟨by cases body; rfl, ?_, ?_⟩
  · intro u hu hnot
    unfold createUserRoute at hu
    by_cases hl : lookupFail
    · simp [hl] at hu
      exact absurd hu hnot
    · simp only [hl, Bool.false_eq_true, if_false] at hu
      revert hu
      cases hfind : db.packages.find? (fun p => body.package_id == some p.id) with
      | none =>
        intro hu
        exact absurd hu hnot
      | some pkg =>
        by_cases hi : insertFail
        · intro hu
          simp [hi] at hu
          exact absurd hu hnot
        · intro hu
          simp only [hi, Bool.false_eq_true, if_false, List.mem_append,
            List.mem_singleton] at hu
          rcases hu with hu | hu
          · exact absurd hu hnot
          · subst hu
            rfl
  · intro c hc
    unfold createUserRoute at hc
    by_cases hl : lookupFail
    · simp [hl] at hc
    · simp only [hl, Bool.false_eq_true, if_false] at hc
      revert hc
      cases hfind : db.packages.find? (fun p => body.package_id == some p.id) with
      | none =>
        intro hc
        simp at hc
      | some pkg =>
        by_cases hi : insertFail
        · intro hc
          simp [hi] at hc
        · intro hc
          simp only [hi, Bool.false_eq_true, if_false, Resp.ok.injEq] at hc
          subst hc
          rfl

/-- Witness for C6: creating a user on the seeded fixture with a caller-supplied
status `expired` stores and reports status `active`. -/
theorem createUser_status_always_active_witness :
    createUserRoute fixtureDb 0 demoHash
        { username := "newuser", password := "pw", package_id := some 1,
          device := some "Web", status := some "expired" } false false =
      createUserRoute fixtureDb 0 demoHash
        { username := "newuser", password := "pw", package_id := some 1,
          device := some "Web", status := none } false false ∧
    (∀ c, (createUserRoute fixtureDb 0 demoHash
        { username := "newuser", password := "pw", package_id := some 1,
          device := some "Web", status := none } false false).1 = .ok c →
      c.status = "active") :=
  ⟨(createUser_status_always_active fixtureDb 0 demoHash
      { username := "newuser", password := "pw", package_id := some 1,
        device := some "Web", status := none } false false (some "expired")).1,
   (createUser_status_always_active fixtureDb 0 demoHash
      { username := "newuser", password := "pw", package_id := some 1,
        device := some "Web", status := none } false false (some "expired")).2.2⟩

/-- C4: `GET /api/packages` decorates every package with a derived
`subscribers` field equal to the number of user rows whose `package_id`
matches and whose status is `active`, recomputed from the database state
passed to the handler. -/
theorem packagesList_subscribers :
    ∀ db : Db,
      packagesListRoute db false = .ok (packagesListRows db) ∧
      (∀ p n, (p, n) ∈ packagesListRows db →
        n = (db.users.filter fun u =>
              u.package_id == some p.id && u.status == "active").length) ∧
      (∀ p, p ∈ db.packages → (p, subscribersCount db p.id) ∈ packagesListRows db) := by
  intro db
  refine ⟨rfl, ?_, ?_⟩
  · intro p n hpn
    unfold packagesListRows at hpn
    rcases List.mem_map.mp hpn with ⟨q, _, heq⟩
    rcases Prod.mk.injEq .. ▸ heq with ⟨rfl, rfl⟩
    rfl
  · intro p hp
    exact List.mem_map.mpr ⟨p, hp, rfl⟩

/-- Witness for C4 on the spec's fixture: two active users on package 1 give
`subscribers = 2`. -/
theorem packagesList_subscribers_witness :
    (pkgFix, 2) ∈ packagesListRows fix2Db ∧
    2 = (fix2Db.users.filter fun u =>
          u.package_id == some pkgFix.id && u.status == "active").length :=
  ⟨(packagesList_subscribers fix2Db).2.2 pkgFix (by decide),
   (packagesList_subscribers fix2Db).2.1 pkgFix 2
     ((packagesList_subscribers fix2Db).2.2 pkgFix (by decide))⟩

end IPTV

namespace IPTV

/-- C1 counterexample: deleting user id 1 from an empty users table affects
zero rows, yet the route answers the success acknowledgement, not 404; the
same holds for updating a user and deleting a channel. -/
theorem mutation_zero_changes_counterexample :
    (emptyDb.users.filter fun u => u.id == 1).length = 0 ∧
    (userDeleteRoute emptyDb 1 false).1 = .ok "User deleted successfully" ∧
    (userPutRoute emptyDb 1 none "active" none false).1 =
      .ok "User updated successfully" ∧
    (emptyDb.channels.filter fun c => c.id == 1).length = 0 ∧
    (channelDeleteRoute emptyDb 1 false).1 = .ok "Channel deleted successfully" := by
  decide

/-- C1 amended: only the package controller's update and delete signal 404
when the affected-row count of the mutation is zero; the user update, user
delete and channel delete routes acknowledge success regardless of the
affected-row count. -/
theorem mutation_zero_changes_amended :
    (∀ (db : Db) (pid : Nat) (n : String) (c d : Nat) (pr : Int) (st : String),
      changesFor (db.packages.map (·.id)) pid = 0 →
      (packagePutRoute db pid n c d pr st false).1 = .err 404 "Package not found") ∧
    (∀ (db : Db) (pid : Nat) (n : String) (c d : Nat) (pr : Int) (st : String),
      changesFor (db.packages.map (·.id)) pid ≠ 0 →
      (packagePutRoute db pid n c d pr st false).1 =
        .ok "Package updated successfully") ∧
    (∀ (db : Db) (pid : Nat),
      changesFor (db.packages.map (·.id)) pid = 0 →
      (packageDeleteRoute db pid false).1 = .err 404 "Package not found") ∧
    (∀ (db : Db) (pid : Nat),
      changesFor (db.packages.map (·.id)) pid ≠ 0 →
      (packageDeleteRoute db pid false).1 = .ok "Package deleted successfully") ∧
    (∀ (db : Db) (uid : Nat) (pid : Option Nat) (st : String) (dev : Option String),
      (userPutRoute db uid pid st dev false).1 = .ok "User updated successfully") ∧
    (∀ (db : Db) (uid : Nat),
      (userDeleteRoute db uid false).1 = .ok "User deleted successfully") ∧
    (∀ (db : Db) (cid : Nat),
      (channelDeleteRoute db cid false).1 = .ok "Channel deleted successfully") := by
  refine ⟨?_, ?_, ?_, ?_, fun db uid pid st dev => rfl, fun db uid => rfl,
    fun db cid => rfl⟩
  · intro db pid n c d pr st h
    simp [packagePutRoute, h]
  · intro db pid n c d pr st h
    simp [packagePutRoute, Nat.beq_eq_true_eq, h]
  · intro db pid h
    simp [packageDeleteRoute, h]
  · intro db pid h
    simp [packageDeleteRoute, Nat.beq_eq_true_eq, h]

/-- Witness for the C1 amended theorem at concrete inputs. -/
theorem mutation_zero_changes_amended_witness :
    (packagePutRoute emptyDb 1 "X" 1 1 1 "active" false).1 =
      .err 404 "Package not found" ∧
    (packageDeleteRoute fixtureDb 1 false).1 = .ok "Package deleted successfully" ∧
    (userDeleteRoute emptyDb 7 false).1 = .ok "User deleted successfully" :=
  ⟨mutation_zero_changes_amended.1 emptyDb 1 "X" 1 1 1 "active" (by decide),
   mutation_zero_changes_amended.2.2.2.1 fixtureDb 1 (by decide),
   mutation_zero_changes_amended.2.2.2.2.2.1 emptyDb 7⟩

/-- C2 counterexample: a storage failure in the first nested aggregate of
`GET /api/dashboard/stats` is not converted into a generic 500 response; the
unchecked `err` leads to a `TypeError` on the undefined row and the handler
crashes without responding. -/
theorem stats_failure_counterexample :
    dashboardStats (.error ()) (.ok none) (.ok none) (.ok none) (.ok none)
      (.ok none) = .crash ∧
    dashboardStats (.error ()) (.ok none) (.ok none) (.ok none) (.ok none)
      (.ok none) ≠ .err 500 "Database error" := by
  decide

end IPTV

namespace IPTV

/-- C2 amended: every route handler checks the storage error of its own
query and converts it into the generic 500 "Database error" response, with
three exceptions: the six nested aggregate queries of
`GET /api/dashboard/stats` and the package-duration lookup of
`POST /api/users` ignore `err`, dereference the undefined row and crash with
an uncaught exception instead of responding; and the fire-and-forget
`last_seen` UPDATE of `POST /api/auth/user-login` has no callback at all, so
its storage failure is never observed — the 200 login response is sent
regardless and only the `last_seen` write is lost. -/
theorem storage_failure_policy_amended :
    (∀ (db : Db) (u : String) (cmp : String → String → Bool)
        (sign : Nat → String → String) (pw : String),
      adminLoginRoute db u cmp sign pw true = .err 500 "Database error") ∧
    (∀ (db : Db) (now : Nat) (u : String) (cmp : String → String → Bool)
        (sign : Nat → String → String) (pw : String) (uf : Bool),
      (userLoginRoute db now u cmp sign pw true uf).1 =
        .err 500 "Database error") ∧
    (∀ (db : Db) (now : Nat) (uname : String) (cmp : String → String → Bool)
        (sign : Nat → String → String) (pw : String) (u : UserRow),
      db.users.find? (fun v => v.username == uname) = some u →
      cmp pw u.password = true →
      (userLoginRoute db now uname cmp sign pw false true).1 =
        .ok { token := sign u.id u.username, id := u.id, username := u.username,
              status := u.status, expiry_date := u.expiry_date } ∧
      (userLoginRoute db now uname cmp sign pw false true).2 = db) ∧
    (∀ (db : Db) (now : Nat),
      activityRoute db now true = .err 500 "Database error") ∧
    (∀ db : Db, packagesListRoute db true = .err 500 "Database error") ∧
    (∀ (db : Db) (pid : Nat),
      packageGetRoute db pid true = .err 500 "Database error") ∧
    (∀ (db : Db) (now : Nat) (n : String) (c d : Nat) (pr : Int),
      (packageCreateRoute db now n c d pr true).1 = .err 500 "Database error") ∧
    (∀ (db : Db) (pid : Nat) (n : String) (c d : Nat) (pr : Int) (st : String),
      (packagePutRoute db pid n c d pr st true).1 = .err 500 "Database error") ∧
    (∀ (db : Db) (pid : Nat),
      (packageDeleteRoute db pid true).1 = .err 500 "Database error") ∧
    (∀ db : Db, usersListRoute db true = .err 500 "Database error") ∧
    (∀ (db : Db) (now : Nat) (hash : String → String) (body : CreateUserBody)
        (pkg : PackageRow),
      db.packages.find? (fun p => body.package_id == some p.id) = some pkg →
      (createUserRoute db now hash body false true).1 = .err 500 "Database error") ∧
    (∀ (db : Db) (uid : Nat) (pid : Option Nat) (st : String) (dev : Option String),
      (userPutRoute db uid pid st dev true).1 = .err 500 "Database error") ∧
    (∀ (db : Db) (uid : Nat),
      (userDeleteRoute db uid true).1 = .err 500 "Database error") ∧
    (∀ (db : Db) (pid : Nat),
      channelsGetRoute db pid true = .err 500 "Database error") ∧
    (∀ (db : Db) (now : Nat) (n u : String) (l c : Option String) (pid : Option Nat),
      (channelCreateRoute db now n u l c pid true).1 = .err 500 "Database error") ∧
    (∀ (db : Db) (cid : Nat),
      (channelDeleteRoute db cid true).1 = .err 500 "Database error") ∧
    (∀ r2 r3 r4 r5 r6 : Except Unit (Option Int),
      dashboardStats (.error ()) r2 r3 r4 r5 r6 = .crash) ∧
    (∀ (v1 : Option Int) (r3 r4 r5 r6 : Except Unit (Option Int)),
      dashboardStats (.ok v1) (.error ()) r3 r4 r5 r6 = .crash) ∧
    (∀ (v1 v2 : Option Int) (r4 r5 r6 : Except Unit (Option Int)),
      dashboardStats (.ok v1) (.ok v2) (.error ()) r4 r5 r6 = .crash) ∧
    (∀ (v1 v2 v3 : Option Int) (r5 r6 : Except Unit (Option Int)),
      dashboardStats (.ok v1) (.ok v2) (.ok v3) (.error ()) r5 r6 = .crash) ∧
    (∀ (v1 v2 v3 v4 : Option Int) (r6 : Except Unit (Option Int)),
      dashboardStats (.ok v1) (.ok v2) (.ok v3) (.ok v4) (.error ()) r6 = .crash) ∧
    (∀ v1 v2 v3 v4 v5 : Option Int,
      dashboardStats (.ok v1) (.ok v2) (.ok v3) (.ok v4) (.ok v5)
        (.error ()) = .crash) ∧
    (∀ (db : Db) (now : Nat) (hash : String → String) (body : CreateUserBody)
        (insertFail : Bool),
      (createUserRoute db now hash body true insertFail).1 = .crash) := by
  refine ⟨fun _ _ _ _ _ => rfl, fun _ _ _ _ _ _ _ => rfl, ?_, fun _ _ => rfl,
    fun _ => rfl,
    fun _ _ => rfl, fun _ _ _ _ _ _ => rfl, fun _ _ _ _ _ _ _ => rfl,
    fun _ _ => rfl, fun _ => rfl, ?_, fun _ _ _ _ _ => rfl, fun _ _ => rfl,
    fun _ _ => rfl, fun _ _ _ _ _ _ _ => rfl, fun _ _ => rfl,
    fun _ _ _ _ _ => rfl, fun _ _ _ _ _ => rfl, fun _ _ _ _ _ => rfl,
    fun _ _ _ _ _ => rfl, fun _ _ _ _ _ => rfl, fun _ _ _ _ _ => rfl,
    fun _ _ _ _ _ => rfl⟩
  · intro db now uname cmp sign pw u hfind hcmp
    refine ⟨?_, ?_⟩ <;> simp [userLoginRoute, hfind, hcmp]
  · intro db now hash body pkg hfind
    simp [createUserRoute, hfind]

/-- Witness for the C2 amended theorem at concrete inputs, including a failed
fire-and-forget `last_seen` UPDATE that still yields the 200 login response
with the database unchanged. -/
theorem storage_failure_policy_amended_witness :
    activityRoute emptyDb 0 true = .err 500 "Database error" ∧
    (userLoginRoute fixtureDb 99 "user001" (fun p _ => p == "user123")
        (fun _ _ => "tok") "user123" false true).1 =
      .ok { token := "tok", id := 1, username := "user001", status := "active",
            expiry_date := some 2592000000 } ∧
    (userLoginRoute fixtureDb 99 "user001" (fun p _ => p == "user123")
        (fun _ _ => "tok") "user123" false true).2 = fixtureDb ∧
    (createUserRoute fixtureDb 0 demoHash
        { username := "n", password := "p", package_id := some 1,
          device := none, status := none } false true).1 =
      .err 500 "Database error" ∧
    dashboardStats (.ok none) (.ok none) (.ok none) (.ok none) (.ok none)
      (.error ()) = .crash :=
  ⟨storage_failure_policy_amended.2.2.2.1 emptyDb 0,
   (storage_failure_policy_amended.2.2.1 fixtureDb 99 "user001"
     (fun p _ => p == "user123") (fun _ _ => "tok") "user123"
     { id := 1, username := "user001", password := "userhash",
       package_id := some 1, device := some "Android", status := "active",
       expiry_date := some 2592000000, last_seen := some 0, created_at := 0 }
     (by decide) rfl).1,
   (storage_failure_policy_amended.2.2.1 fixtureDb 99 "user001"
     (fun p _ => p == "user123") (fun _ _ => "tok") "user123"
     { id := 1, username := "user001", password := "userhash",
       package_id := some 1, device := some "Android", status := "active",
       expiry_date := some 2592000000, last_seen := some 0, created_at := 0 }
     (by decide) rfl).2,
   storage_failure_policy_amended.2.2.2.2.2.2.2.2.2.2.1 fixtureDb 0 demoHash
     { username := "n", password := "p", package_id := some 1,
       device := none, status := none }
     { id := 1, name := "Basic Plan", channels := 150, duration := 30,
       price := 15, status := "active", created_at := 0 } (by decide),
   storage_failure_policy_amended.2.2.2.2.2.2.2.2.2.2.2.2.2.2.2.2.2.2.2.2.2.1
     none none none none none⟩

/-- C3: creating a user whose `package_id` matches no package does not fall
back to a 30-day expiry — the lookup callback dereferences the undefined
`pkg` row, throws a `TypeError`, inserts nothing and sends no response. -/
theorem createUser_missing_package_crashes :
    (createUserRoute fixtureDb 0 demoHash
        { username := "newuser", password := "pw", package_id := some 999,
          device := some "Android", status := none } false false).1 = .crash ∧
    (createUserRoute fixtureDb 0 demoHash
        { username := "newuser", password := "pw", package_id := some 999,
          device := some "Android", status := none } false false).2 =
      fixtureDb ∧
    (createUserRoute fixtureDb 0 demoHash
        { username := "newuser", password := "pw", package_id := none,
          device := some "Android", status := none } false false).1 = .crash ∧
    (createUserRoute fixtureDb 0 demoHash
        { username := "newuser", password := "pw", package_id := some 1,
          device := some "Android", status := none } false false).2.users.length =
      fixtureDb.users.length + 1 := by
  decide

end IPTV

namespace IPTV

/-- C7 counterexample: seeding a database whose admins table is non-empty but
holds no username `admin` still inserts the admin seed row, because the guard
is `SELECT * FROM admins WHERE username = 'admin'`, not table emptiness. -/
theorem seedAdmins_nonempty_counterexample :
    otherAdminDb.admins ≠ [] ∧
    (seedAdmins otherAdminDb "adminhash" 0).admins.length =
      otherAdminDb.admins.length + 1 := by
  decide

/-- C7 amended: the package and user seeds are inserted exactly when their
table is empty; the admin seed row is inserted exactly when no row with
username `admin` exists — regardless of whether the admins table is empty. -/
theorem seeding_amended :
    (∀ (db : Db) (now : Nat),
      db.packages = [] → (seedPackages db now).packages.length = 3) ∧
    (∀ (db : Db) (now : Nat), db.packages ≠ [] → seedPackages db now = db) ∧
    (∀ (db : Db) (h : String) (now : Nat),
      db.users = [] → (seedUsers db h now).users.length = 4) ∧
    (∀ (db : Db) (h : String) (now : Nat),
      db.users ≠ [] → seedUsers db h now = db) ∧
    (∀ (db : Db) (h : String) (now : Nat),
      (∀ a ∈ db.admins, a.username ≠ "admin") →
      (seedAdmins db h now).admins.length = db.admins.length + 1) ∧
    (∀ (db : Db) (h : String) (now : Nat),
      (∃ a ∈ db.admins, a.username = "admin") → seedAdmins db h now = db) := by
  refine ⟨?_, ?_, ?_, ?_, ?_, ?_⟩
  · intro db now he
    simp [seedPackages, he]
  · intro db now he
    have : (db.packages.length == 0) = false := by
      simp [List.length_eq_zero]
      exact he
    simp [seedPackages, this]
  · intro db h now he
    simp [seedUsers, he]
  · intro db h now he
    have : (db.users.length == 0) = false := by
      simp [List.length_eq_zero]
      exact he
    simp [seedUsers, this]
  · intro db h now hnone
    have hfind : db.admins.find? (fun a => a.username == "admin") = none := by
      apply List.find?_eq_none.mpr
      intro a ha
      simp only [beq_iff_eq]
      exact hnone a ha
    simp [seedAdmins, hfind]
  · intro db h now hex
    rcases hex with ⟨a, ha, hname⟩
    have hsome : (db.admins.find? (fun a => a.username == "admin")).isSome := by
      apply List.find?_isSome.mpr
      exact ⟨a, ha, by simp [hname]⟩
    have : (db.admins.find? (fun a => a.username == "admin")).isNone = false := by
      rcases Option.isSome_iff_exists.mp hsome with ⟨b, hb⟩
      simp [hb]
    simp [seedAdmins, this]

/-- Witness for the C7 amended theorem at concrete inputs. -/
theorem seeding_amended_witness :
    (seedPackages emptyDb 0).packages.length = 3 ∧
    seedPackages fixtureDb 0 = fixtureDb ∧
    (seedUsers emptyDb "userhash" 0).users.length = 4 ∧
    (seedAdmins emptyDb "adminhash" 0).admins.length = emptyDb.admins.length + 1 ∧
    seedAdmins fixtureDb "adminhash" 0 = fixtureDb :=
  ⟨seeding_amended.1 emptyDb 0 rfl,
   seeding_amended.2.1 fixtureDb 0 (by decide),
   seeding_amended.2.2.1 emptyDb "userhash" 0 rfl,
   seeding_amended.2.2.2.2.1 emptyDb "adminhash" 0 (by decide),
   seeding_amended.2.2.2.2.2 fixtureDb "adminhash" 0
     ⟨{ id := 1, username := "admin", password := "adminhash",
        email := some "admin@iptv.com", created_at := 0 }, by decide, rfl⟩⟩

end IPTV
